import Mathlib

/-! Layer creators of `caffe/layer_factory.cpp`.

A shallow embedding of the engine-resolving layer creators
(`GetConvolutionLayer`, `GetDeconvolutionLayer`, `GetPoolingLayer`,
`GetLRNLayer`, `GetReLULayer`, `GetSigmoidLayer`, `GetSoftmaxLayer`,
`GetTanHLayer`), of the single-implementation creators and of the
`REGISTER_LAYER_CREATOR` lines, with theorems about which implementation each
creator instantiates. The registry itself is declared in
`caffe/layer_factory.hpp`, outside the sources at hand, and is modelled from the
specification.

Conventions of the embedding:

* conditional compilation (`#ifdef USE_CUDNN`) is a boolean field of `BuildConfig`;
* `LOG(FATAL) << msg` terminates the process, so a creator returns
  `Except String Layer`, the error carrying the streamed message;
  `LOG(INFO)` only writes a diagnostic and does not change the returned value;
* `new XLayer<Dtype>(param)` is the pair of the class tag `X` and `param`.
-/

namespace caffe

/-! ## Data model -/

/-- Value of an `Engine` enum field (`ConvolutionParameter_Engine`,
`PoolingParameter_Engine`, `LRNParameter_Engine`, `ReLUParameter_Engine`,
`SigmoidParameter_Engine`, `SoftmaxParameter_Engine`, `TanHParameter_Engine`).
The source names three enumerators for each of them; `unknown raw` stands for
any other value the enum-typed variable may hold. -/
inductive Engine where
  | DEFAULT
  | CAFFE
  | CUDNN
  | unknown (raw : Nat)
  deriving DecidableEq, Repr

/-- Pooling methods, `PoolingParameter_PoolMethod`. -/
inductive PoolMethod where
  | MAX
  | AVE
  | STOCHASTIC
  deriving DecidableEq, Repr

/-- Normalisation regions, `LRNParameter_NormRegion`. -/
inductive NormRegion where
  | ACROSS_CHANNELS
  | WITHIN_CHANNEL
  deriving DecidableEq, Repr

/-- Fields of `ConvolutionParameter` read by the creators: the engine and the
repeated unsigned field `dilation`. -/
structure ConvolutionParameter where
  engine : Engine
  dilation : List Nat
  deriving DecidableEq, Repr

/-- Fields of `PoolingParameter` read by the creators. -/
structure PoolingParameter where
  engine : Engine
  pool : PoolMethod
  deriving DecidableEq, Repr

/-- Fields of `LRNParameter` read by the creators. -/
structure LRNParameter where
  engine : Engine
  norm_region : NormRegion
  local_size : Nat
  deriving DecidableEq, Repr

/-- The engine field of `ReLUParameter`. -/
structure ReLUParameter where
  engine : Engine
  deriving DecidableEq, Repr

/-- The engine field of `SigmoidParameter`. -/
structure SigmoidParameter where
  engine : Engine
  deriving DecidableEq, Repr

/-- The engine field of `SoftmaxParameter`. -/
structure SoftmaxParameter where
  engine : Engine
  deriving DecidableEq, Repr

/-- The engine field of `TanHParameter`. -/
structure TanHParameter where
  engine : Engine
  deriving DecidableEq, Repr

/-- The part of `LayerParameter` the creators look at. -/
structure LayerParameter where
  name : String
  type : String
  top : List String
  convolution_param : ConvolutionParameter
  pooling_param : PoolingParameter
  lrn_param : LRNParameter
  relu_param : ReLUParameter
  sigmoid_param : SigmoidParameter
  softmax_param : SoftmaxParameter
  tanh_param : TanHParameter
  deriving DecidableEq, Repr

/-- Number of tops, `param.top_size()`. -/
def LayerParameter.top_size (param : LayerParameter) : Nat :=
  param.top.length

/-- The preprocessor configuration the file is compiled under: whether
`USE_CUDNN` is defined, and the value of the cuDNN header constant
`CUDNN_LRN_MAX_N`, which the source uses without defining it. -/
structure BuildConfig where
  USE_CUDNN : Bool
  CUDNN_LRN_MAX_N : Nat
  deriving DecidableEq, Repr

/-- The layer classes instantiated in `layer_factory.cpp`. -/
inductive LayerClass where
  | ConvolutionLayer
  | CuDNNConvolutionLayer
  | DeconvolutionLayer
  | PoolingLayer
  | CuDNNPoolingLayer
  | LRNLayer
  | CuDNNLRNLayer
  | CuDNNLCNLayer
  | ReLULayer
  | CuDNNReLULayer
  | SigmoidLayer
  | CuDNNSigmoidLayer
  | SoftmaxLayer
  | CuDNNSoftmaxLayer
  | TanHLayer
  | CuDNNTanHLayer
  | ImageLabelDataLayer
  | MeshImageLabelDataLayer
  | ImageDepthLabelDataLayer
  | Image2MeshLayer
  | DropoutLayer
  | SoftmaxWithLossLayer
  | CRFLossLayer
  | AccuracyLayer
  | InputLayer
  | PythonLayer
  deriving DecidableEq, Repr

/-- A constructed layer, `new C<Dtype>(param)`: its class and the parameter it
was built from. -/
structure Layer where
  cls : LayerClass
  layer_param : LayerParameter
  deriving DecidableEq, Repr

deriving instance DecidableEq for Except

/-! ## The creators -/

/-- The loop of `GetConvolutionLayer` and `GetDeconvolutionLayer` computing
`use_dilation`: starting from `false`, the flag is set at every index `i` with
`conv_param.dilation(i) > 1`. -/
def use_dilation (dilation : List Nat) : Bool :=
  dilation.foldl (fun flag d => if d > 1 then true else flag) false

/-- The message of the final `else` branch of every engine-aware creator. -/
def unknownEngineMessage (param : LayerParameter) : String :=
  "Layer " ++ param.name ++ " has unknown engine."

/-- Get convolution layer according to engine. -/
def GetConvolutionLayer (cfg : BuildConfig) (param : LayerParameter) :
    Except String Layer :=
  let conv_param := param.convolution_param
  let engine := conv_param.engine
  let use_dilation := use_dilation conv_param.dilation
  let engine :=
    if engine = Engine.DEFAULT then
      if cfg.USE_CUDNN then
        if !use_dilation then Engine.CUDNN else Engine.CAFFE
      else Engine.CAFFE
    else engine
  if engine = Engine.CAFFE then
    .ok ⟨.ConvolutionLayer, param⟩
  else if cfg.USE_CUDNN && engine = Engine.CUDNN then
    if use_dilation then
      .error ("CuDNN doesn't support the dilated convolution at Layer " ++ param.name)
    else
      .ok ⟨.CuDNNConvolutionLayer, param⟩
  else
    .error (unknownEngineMessage param)

/-- Get Deconvolution layer according to engine. -/
def GetDeconvolutionLayer (cfg : BuildConfig) (param : LayerParameter) :
    Except String Layer :=
  let conv_param := param.convolution_param
  let engine := conv_param.engine
  let use_dilation := use_dilation conv_param.dilation
  let engine :=
    if engine = Engine.DEFAULT then
      if cfg.USE_CUDNN then
        if !use_dilation then Engine.CUDNN else Engine.CAFFE
      else Engine.CAFFE
    else engine
  if engine = Engine.CAFFE then
    .ok ⟨.DeconvolutionLayer, param⟩
  else if cfg.USE_CUDNN && engine = Engine.CUDNN then
    if use_dilation then
      .error ("CuDNN doesn't support the dilated Deconvolution at Layer " ++ param.name)
    else
      .ok ⟨.DeconvolutionLayer, param⟩
  else
    .error (unknownEngineMessage param)

/-- Get pooling layer according to engine. -/
def GetPoolingLayer (cfg : BuildConfig) (param : LayerParameter) :
    Except String Layer :=
  let engine := param.pooling_param.engine
  let engine :=
    if engine = Engine.DEFAULT then
      if cfg.USE_CUDNN then Engine.CUDNN else Engine.CAFFE
    else engine
  if engine = Engine.CAFFE then
    .ok ⟨.PoolingLayer, param⟩
  else if cfg.USE_CUDNN && engine = Engine.CUDNN then
    if param.top_size > 1 then
      .ok ⟨.PoolingLayer, param⟩
    else if param.pooling_param.pool = PoolMethod.MAX then
      .ok ⟨.PoolingLayer, param⟩
    else
      .ok ⟨.CuDNNPoolingLayer, param⟩
  else
    .error (unknownEngineMessage param)

/-- Get LRN layer according to engine. -/
def GetLRNLayer (cfg : BuildConfig) (param : LayerParameter) :
    Except String Layer :=
  let engine := param.lrn_param.engine
  let engine :=
    if engine = Engine.DEFAULT then
      if cfg.USE_CUDNN then Engine.CUDNN else Engine.CAFFE
    else engine
  if engine = Engine.CAFFE then
    .ok ⟨.LRNLayer, param⟩
  else if cfg.USE_CUDNN && engine = Engine.CUDNN then
    let lrn_param := param.lrn_param
    if lrn_param.norm_region = NormRegion.WITHIN_CHANNEL then
      .ok ⟨.CuDNNLCNLayer, param⟩
    else if param.lrn_param.local_size > cfg.CUDNN_LRN_MAX_N then
      .ok ⟨.LRNLayer, param⟩
    else
      .ok ⟨.CuDNNLRNLayer, param⟩
  else
    .error (unknownEngineMessage param)

/-- Get relu layer according to engine. -/
def GetReLULayer (cfg : BuildConfig) (param : LayerParameter) :
    Except String Layer :=
  let engine := param.relu_param.engine
  let engine :=
    if engine = Engine.DEFAULT then
      if cfg.USE_CUDNN then Engine.CUDNN else Engine.CAFFE
    else engine
  if engine = Engine.CAFFE then
    .ok ⟨.ReLULayer, param⟩
  else if cfg.USE_CUDNN && engine = Engine.CUDNN then
    .ok ⟨.CuDNNReLULayer, param⟩
  else
    .error (unknownEngineMessage param)

/-- Get sigmoid layer according to engine. -/
def GetSigmoidLayer (cfg : BuildConfig) (param : LayerParameter) :
    Except String Layer :=
  let engine := param.sigmoid_param.engine
  let engine :=
    if engine = Engine.DEFAULT then
      if cfg.USE_CUDNN then Engine.CUDNN else Engine.CAFFE
    else engine
  if engine = Engine.CAFFE then
    .ok ⟨.SigmoidLayer, param⟩
  else if cfg.USE_CUDNN && engine = Engine.CUDNN then
    .ok ⟨.CuDNNSigmoidLayer, param⟩
  else
    .error (unknownEngineMessage param)

/-- Get softmax layer according to engine. -/
def GetSoftmaxLayer (cfg : BuildConfig) (param : LayerParameter) :
    Except String Layer :=
  let engine := param.softmax_param.engine
  let engine :=
    if engine = Engine.DEFAULT then
      if cfg.USE_CUDNN then Engine.CUDNN else Engine.CAFFE
    else engine
  if engine = Engine.CAFFE then
    .ok ⟨.SoftmaxLayer, param⟩
  else if cfg.USE_CUDNN && engine = Engine.CUDNN then
    .ok ⟨.CuDNNSoftmaxLayer, param⟩
  else
    .error (unknownEngineMessage param)

/-- Get tanh layer according to engine. -/
def GetTanHLayer (cfg : BuildConfig) (param : LayerParameter) :
    Except String Layer :=
  let engine := param.tanh_param.engine
  let engine :=
    if engine = Engine.DEFAULT then
      if cfg.USE_CUDNN then Engine.CUDNN else Engine.CAFFE
    else engine
  if engine = Engine.CAFFE then
    .ok ⟨.TanHLayer, param⟩
  else if cfg.USE_CUDNN && engine = Engine.CUDNN then
    .ok ⟨.CuDNNTanHLayer, param⟩
  else
    .error (unknownEngineMessage param)

/-! ## Creators with a single implementation -/

/-- Get image label data layer. The build configuration is not consulted. -/
def GetImageLabelDataLayer (_cfg : BuildConfig) (param : LayerParameter) :
    Except String Layer :=
  .ok ⟨.ImageLabelDataLayer, param⟩

/-- Get mesh image label data layer. The build configuration is not consulted. -/
def GetMeshImageLabelDataLayer (_cfg : BuildConfig) (param : LayerParameter) :
    Except String Layer :=
  .ok ⟨.MeshImageLabelDataLayer, param⟩

/-- Get image-depth-label data layer. The build configuration is not consulted. -/
def GetImageDepthLabelDataLayer (_cfg : BuildConfig) (param : LayerParameter) :
    Except String Layer :=
  .ok ⟨.ImageDepthLabelDataLayer, param⟩

/-- Get image2mesh layer. The build configuration is not consulted. -/
def GetImage2MeshLayer (_cfg : BuildConfig) (param : LayerParameter) :
    Except String Layer :=
  .ok ⟨.Image2MeshLayer, param⟩

/-- Get dropout layer. The build configuration is not consulted. -/
def GetDropoutLayer (_cfg : BuildConfig) (param : LayerParameter) :
    Except String Layer :=
  .ok ⟨.DropoutLayer, param⟩

/-- Get softmax with loss layer. The build configuration is not consulted. -/
def GetSoftmaxWithLossLayer (_cfg : BuildConfig) (param : LayerParameter) :
    Except String Layer :=
  .ok ⟨.SoftmaxWithLossLayer, param⟩

/-- Get softmax with CRF loss layer. The build configuration is not consulted. -/
def GetCRFLossLayer (_cfg : BuildConfig) (param : LayerParameter) :
    Except String Layer :=
  .ok ⟨.CRFLossLayer, param⟩

/-- Get accuracy layer. The build configuration is not consulted. -/
def GetAccuracyLayer (_cfg : BuildConfig) (param : LayerParameter) :
    Except String Layer :=
  .ok ⟨.AccuracyLayer, param⟩

/-- Get input layer (the source comment repeats "Get accuracy layer"). The build configuration is not consulted. -/
def GetInputLayer (_cfg : BuildConfig) (param : LayerParameter) :
    Except String Layer :=
  .ok ⟨.InputLayer, param⟩

/-- The Python creator, compiled under `WITH_PYTHON_LAYER`. The embedded
interpreter is a parameter: `python param` tells whether importing the module,
calling the named attribute on `param` and extracting a `PythonLayer` pointer
all succeed; otherwise `bp::error_already_set` is printed and rethrown. -/
def GetPythonLayer (python : LayerParameter → Bool) (_cfg : BuildConfig)
    (param : LayerParameter) : Except String Layer :=
  if python param then .ok ⟨.PythonLayer, param⟩
  else .error "bp::error_already_set"

/-! ## Registrations -/

/-- Type of a creator, `LayerRegistry<Dtype>::Creator`, with the build
configuration made explicit. -/
abbrev Creator := BuildConfig → LayerParameter → Except String Layer

/-- The `REGISTER_LAYER_CREATOR(type, creator)` lines 85 to 380 of the file, in
source order. -/
def layerRegistrations : List (String × Creator) :=
  [("Convolution", GetConvolutionLayer),
   ("Deconvolution", GetDeconvolutionLayer),
   ("Pooling", GetPoolingLayer),
   ("LRN", GetLRNLayer),
   ("ReLU", GetReLULayer),
   ("Sigmoid", GetSigmoidLayer),
   ("Softmax", GetSoftmaxLayer),
   ("TanH", GetTanHLayer),
   ("ImageLabelDataLayer", GetImageLabelDataLayer),
   ("MeshImageLabelDataLayer", GetMeshImageLabelDataLayer),
   ("ImageDepthLabelDataLayer", GetImageDepthLabelDataLayer),
   ("Image2MeshLayer", GetImage2MeshLayer),
   ("DropoutLayer", GetDropoutLayer),
   ("SoftmaxWithLossLayer", GetSoftmaxWithLossLayer),
   ("CRFLossLayer", GetCRFLossLayer),
   ("AccuracyLayer", GetAccuracyLayer),
   ("InputLayer", GetInputLayer)]

/-- All registrations of the file: those of `layerRegistrations`, followed by
`REGISTER_LAYER_CREATOR(Python, GetPythonLayer)` (line 398) when
`WITH_PYTHON_LAYER` is defined. -/
def allRegistrations (WITH_PYTHON_LAYER : Bool) (python : LayerParameter → Bool) :
    List (String × Creator) :=
  layerRegistrations ++
    (if WITH_PYTHON_LAYER then [("Python", GetPythonLayer python)] else [])

/-- The type names registered by the file. -/
def registeredNames (WITH_PYTHON_LAYER : Bool) : List String :=
  ["Convolution", "Deconvolution", "Pooling", "LRN", "ReLU", "Sigmoid", "Softmax",
   "TanH", "ImageLabelDataLayer", "MeshImageLabelDataLayer",
   "ImageDepthLabelDataLayer", "Image2MeshLayer", "DropoutLayer",
   "SoftmaxWithLossLayer", "CRFLossLayer", "AccuracyLayer", "InputLayer"] ++
    (if WITH_PYTHON_LAYER then ["Python"] else [])

/-! ## The engine resolved by the convolution creators -/

/-- Value of the local variable `engine` of `GetConvolutionLayer` after the
`DEFAULT` block, lines 52 to 68. -/
def convolutionEngine (cfg : BuildConfig) (param : LayerParameter) : Engine :=
  let conv_param := param.convolution_param
  let engine := conv_param.engine
  let use_dilation := use_dilation conv_param.dilation
  if engine = Engine.DEFAULT then
    if cfg.USE_CUDNN then
      if !use_dilation then Engine.CUDNN else Engine.CAFFE
    else Engine.CAFFE
  else engine

/-- Value of the local variable `engine` of `GetDeconvolutionLayer` after the
`DEFAULT` block, lines 93 to 109. -/
def deconvolutionEngine (cfg : BuildConfig) (param : LayerParameter) : Engine :=
  let conv_param := param.convolution_param
  let engine := conv_param.engine
  let use_dilation := use_dilation conv_param.dilation
  if engine = Engine.DEFAULT then
    if cfg.USE_CUDNN then
      if !use_dilation then Engine.CUDNN else Engine.CAFFE
    else Engine.CAFFE
  else engine

/-! ## The registry -/

/-- Modelled from the spec: the registry, declared in `caffe/layer_factory.hpp`
(not among the sources), is the "process-wide mapping from operator type name
to its resolution rule"; here the list of its entries, oldest first. -/
abbrev CreatorRegistry := List (String × Creator)

/-- Modelled from the spec: `register(type_name, creator)` "inserts the creator
under `type_name`" and "fails (fatal, non-recoverable) if `type_name` already
present". -/
def AddCreator (registry : CreatorRegistry) (type : String) (creator : Creator) :
    Except String CreatorRegistry :=
  if registry.any (fun entry => entry.1 == type) then
    .error ("Layer type " ++ type ++ " already registered.")
  else
    .ok (registry ++ [(type, creator)])

/-- Modelled from the spec: `lookup(type_name)` "returns the creator for
`type_name`" and "fails (fatal, non-recoverable, reported with the offending
name) if absent". -/
def lookupCreator (registry : CreatorRegistry) (type : String) :
    Except String Creator :=
  match registry.find? (fun entry => entry.1 == type) with
  | some entry => .ok entry.2
  | none => .error ("Unknown layer type: " ++ type)

/-- Modelled from the spec: `create(spec)` "looks up the creator for
`spec.type_name` via the Registry, then invokes it with `spec`". -/
def CreateLayer (registry : CreatorRegistry) (cfg : BuildConfig)
    (param : LayerParameter) : Except String Layer :=
  match lookupCreator registry param.type with
  | .ok creator => creator cfg param
  | .error e => .error e

/-- Running a sequence of registrations, in the given order, on a registry; the
first failing `AddCreator` stops the process. -/
def registerAll (registry : CreatorRegistry) :
    List (String × Creator) → Except String CreatorRegistry
  | [] => .ok registry
  | (type, creator) :: rest =>
    match AddCreator registry type creator with
    | .ok registry1 => registerAll registry1 rest
    | .error e => .error e

/-! ## Vocabulary of the properties -/

/-- The operator family that the stated property associates with a registered
type name: the classes an instance created under that name may belong to. -/
def operatorFamily (type : String) : List LayerClass :=
  if type = "Convolution" then [.ConvolutionLayer, .CuDNNConvolutionLayer]
  else if type = "Deconvolution" then [.DeconvolutionLayer]
  else if type = "Pooling" then [.PoolingLayer, .CuDNNPoolingLayer]
  else if type = "LRN" then [.LRNLayer, .CuDNNLRNLayer, .CuDNNLCNLayer]
  else if type = "ReLU" then [.ReLULayer, .CuDNNReLULayer]
  else if type = "Sigmoid" then [.SigmoidLayer, .CuDNNSigmoidLayer]
  else if type = "Softmax" then [.SoftmaxLayer, .CuDNNSoftmaxLayer]
  else if type = "TanH" then [.TanHLayer, .CuDNNTanHLayer]
  else if type = "ImageLabelDataLayer" then [.ImageLabelDataLayer]
  else if type = "MeshImageLabelDataLayer" then [.MeshImageLabelDataLayer]
  else if type = "ImageDepthLabelDataLayer" then [.ImageDepthLabelDataLayer]
  else if type = "Image2MeshLayer" then [.Image2MeshLayer]
  else if type = "DropoutLayer" then [.DropoutLayer]
  else if type = "SoftmaxWithLossLayer" then [.SoftmaxWithLossLayer]
  else if type = "CRFLossLayer" then [.CRFLossLayer]
  else if type = "AccuracyLayer" then [.AccuracyLayer]
  else if type = "InputLayer" then [.InputLayer]
  else if type = "Python" then [.PythonLayer]
  else []

/-- The registered type name in whose family a class is listed: the inverse
reading of `operatorFamily`. -/
def familyOwner : LayerClass → String
  | .ConvolutionLayer => "Convolution"
  | .CuDNNConvolutionLayer => "Convolution"
  | .DeconvolutionLayer => "Deconvolution"
  | .PoolingLayer => "Pooling"
  | .CuDNNPoolingLayer => "Pooling"
  | .LRNLayer => "LRN"
  | .CuDNNLRNLayer => "LRN"
  | .CuDNNLCNLayer => "LRN"
  | .ReLULayer => "ReLU"
  | .CuDNNReLULayer => "ReLU"
  | .SigmoidLayer => "Sigmoid"
  | .CuDNNSigmoidLayer => "Sigmoid"
  | .SoftmaxLayer => "Softmax"
  | .CuDNNSoftmaxLayer => "Softmax"
  | .TanHLayer => "TanH"
  | .CuDNNTanHLayer => "TanH"
  | .ImageLabelDataLayer => "ImageLabelDataLayer"
  | .MeshImageLabelDataLayer => "MeshImageLabelDataLayer"
  | .ImageDepthLabelDataLayer => "ImageDepthLabelDataLayer"
  | .Image2MeshLayer => "Image2MeshLayer"
  | .DropoutLayer => "DropoutLayer"
  | .SoftmaxWithLossLayer => "SoftmaxWithLossLayer"
  | .CRFLossLayer => "CRFLossLayer"
  | .AccuracyLayer => "AccuracyLayer"
  | .InputLayer => "InputLayer"
  | .PythonLayer => "Python"

/-! ## Concrete inputs used to exercise the creators -/

/-- A build with cuDNN, with the limit `CUDNN_LRN_MAX_N` of the cuDNN header. -/
def cudnnBuild : BuildConfig := ⟨true, 16⟩

/-- A build without cuDNN. -/
def cpuBuild : BuildConfig := ⟨false, 16⟩

/-- A layer parameter with one top and every engine field left at `DEFAULT`. -/
def sampleParam : LayerParameter :=
  { name := "l1", type := "Convolution", top := ["out"],
    convolution_param := ⟨.DEFAULT, []⟩,
    pooling_param := ⟨.DEFAULT, .MAX⟩,
    lrn_param := ⟨.DEFAULT, .ACROSS_CHANNELS, 5⟩,
    relu_param := ⟨.DEFAULT⟩,
    sigmoid_param := ⟨.DEFAULT⟩,
    softmax_param := ⟨.DEFAULT⟩,
    tanh_param := ⟨.DEFAULT⟩ }

/-- The sample with the convolution engine and dilation list replaced. -/
def convParam (engine : Engine) (dilation : List Nat) : LayerParameter :=
  { sampleParam with convolution_param := ⟨engine, dilation⟩ }

/-- The sample spec with the LRN parameter replaced. -/
def lrnParam (engine : Engine) (region : NormRegion) (local_size : Nat) :
    LayerParameter :=
  { sampleParam with lrn_param := ⟨engine, region, local_size⟩ }

/-- The sample spec with the pooling parameter and the tops replaced. -/
def poolParam (engine : Engine) (pool : PoolMethod) (top : List String) :
    LayerParameter :=
  { sampleParam with pooling_param := ⟨engine, pool⟩, top := top }

/-- The sample spec with the engine of every activation and of softmax replaced. -/
def activationParam (engine : Engine) : LayerParameter :=
  { sampleParam with
    relu_param := ⟨engine⟩, sigmoid_param := ⟨engine⟩,
    softmax_param := ⟨engine⟩, tanh_param := ⟨engine⟩ }

/-! ## Auxiliary lemmas -/

theorem foldl_dilation_flag (ds : List Nat) (flag : Bool) :
    ds.foldl (fun flag d => if d > 1 then true else flag) flag = true ↔
      flag = true ∨ ∃ d ∈ ds, d > 1 := by
  induction ds generalizing flag with
  | nil => simp
  | cons d ds ih =>
    rw [List.foldl_cons, ih]
    by_cases hd : d > 1
    · simp [hd]
    · simp [hd]

theorem use_dilation_iff (ds : List Nat) :
    use_dilation ds = true ↔ ∃ d ∈ ds, d > 1 := by
  unfold use_dilation
  rw [foldl_dilation_flag]
  simp

theorem use_dilation_eq_false_iff (ds : List Nat) :
    use_dilation ds = false ↔ ∀ d ∈ ds, d ≤ 1 := by
  rw [← Bool.not_eq_true, use_dilation_iff]
  push_neg
  rfl

/-- Every class is listed in the family of its owner and in the family of no
other registered type name. -/
theorem operatorFamily_familyOwner (c : LayerClass) :
    c ∈ operatorFamily (familyOwner c) ∧
    ∀ other ∈ registeredNames true, other ≠ familyOwner c → c ∉ operatorFamily other := by
  cases c <;> decide

/-- An instance returned by a creator of `layerRegistrations` has a class owned by
the type name the creator is registered under. -/
theorem layerRegistrations_owner (cfg : BuildConfig) (param : LayerParameter)
    (layer : Layer) (entry : String × Creator) (hreg : entry ∈ layerRegistrations)
    (hok : entry.2 cfg param = .ok layer) : familyOwner layer.cls = entry.1 := by
  simp only [layerRegistrations, List.mem_cons, List.mem_singleton, List.not_mem_nil,
    or_false] at hreg
  rcases hreg with rfl | rfl | rfl | rfl | rfl | rfl | rfl | rfl | rfl | rfl | rfl | rfl | rfl | rfl | rfl | rfl | rfl <;>
    simp only [GetConvolutionLayer, GetDeconvolutionLayer, GetPoolingLayer, GetLRNLayer, GetReLULayer, GetSigmoidLayer, GetSoftmaxLayer, GetTanHLayer, GetImageLabelDataLayer, GetMeshImageLabelDataLayer, GetImageDepthLabelDataLayer, GetImage2MeshLayer, GetDropoutLayer, GetSoftmaxWithLossLayer, GetCRFLossLayer, GetAccuracyLayer, GetInputLayer] at hok <;>
    (first | split_ifs at hok | skip) <;>
    cases hok <;> rfl

/-- An instance returned by any registered creator, the Python one included, has
a class owned by the type name the creator is registered under. -/
theorem allRegistrations_owner (py : Bool) (python : LayerParameter → Bool)
    (cfg : BuildConfig) (param : LayerParameter)
    (layer : Layer) (entry : String × Creator) (hreg : entry ∈ allRegistrations py python)
    (hok : entry.2 cfg param = .ok layer) : familyOwner layer.cls = entry.1 := by
  unfold allRegistrations at hreg
  rcases List.mem_append.1 hreg with h | h
  · exact layerRegistrations_owner cfg param layer entry h hok
  · cases py
    · simp at h
    · simp only [if_true, List.mem_singleton] at h
      subst h
      simp only [GetPythonLayer] at hok
      split_ifs at hok
      cases hok
      rfl

/-- The type names registered by the file are those of `registeredNames`. -/
theorem allRegistrations_names (py : Bool) (python : LayerParameter → Bool) :
    (allRegistrations py python).map Prod.fst = registeredNames py := by
  cases py <;> rfl

/-- No type name occurs twice among the registered names. -/
theorem registeredNames_nodup (py : Bool) : (registeredNames py).Nodup := by
  cases py <;> decide

/-- A name that is the key of no entry is not found. -/
theorem any_key_eq_false (registry : CreatorRegistry) (type : String)
    (habsent : type ∉ registry.map Prod.fst) :
    registry.any (fun entry => entry.1 == type) = false := by
  induction registry with
  | nil => rfl
  | cons e rest ih =>
    simp only [List.map_cons, List.mem_cons, not_or] at habsent
    simp only [List.any_cons, ih habsent.2, Bool.or_false, beq_eq_false_iff_ne, ne_eq]
    exact fun h => habsent.1 h.symm

/-- Registering entries with pairwise distinct names, none of them present yet,
succeeds and appends them in order. -/
theorem registerAll_of_nodup (regs : List (String × Creator)) :
    ∀ registry : CreatorRegistry, ((registry ++ regs).map Prod.fst).Nodup →
      registerAll registry regs = .ok (registry ++ regs) := by
  induction regs with
  | nil => intro registry _; simp [registerAll]
  | cons e rest ih =>
    intro registry hnd
    obtain ⟨type, creator⟩ := e
    have habsent : type ∉ registry.map Prod.fst := by
      rw [List.map_append, List.nodup_append] at hnd
      intro hmem
      exact hnd.2.2 hmem (by simp)
    have hstep : AddCreator registry type creator = .ok (registry ++ [(type, creator)]) := by
      simp [AddCreator, any_key_eq_false registry type habsent]
    have hnd2 : (((registry ++ [(type, creator)]) ++ rest).map Prod.fst).Nodup := by
      simpa [List.append_assoc] using hnd
    simp only [registerAll, hstep]
    rw [ih _ hnd2, List.append_assoc, List.singleton_append]

/-- In a registry with pairwise distinct names, looking up the name of an entry
returns the creator of that entry. -/
theorem lookupCreator_of_mem (registry : CreatorRegistry)
    (hnd : (registry.map Prod.fst).Nodup) (entry : String × Creator)
    (hmem : entry ∈ registry) : lookupCreator registry entry.1 = .ok entry.2 := by
  induction registry with
  | nil => cases hmem
  | cons e rest ih =>
    simp only [List.map_cons, List.nodup_cons] at hnd
    rcases List.mem_cons.1 hmem with h | h
    · subst h
      simp [lookupCreator, List.find?_cons]
    · have hne : e.1 ≠ entry.1 := by
        intro heq
        exact hnd.1 (heq ▸ List.mem_map_of_mem Prod.fst h)
      have hstep : lookupCreator (e :: rest) entry.1 = lookupCreator rest entry.1 := by
        simp [lookupCreator, List.find?_cons, hne]
      rw [hstep]
      exact ih hnd.2 h

/-- Looking up a name that is the key of no entry fails, naming it. -/
theorem lookupCreator_of_not_mem (registry : CreatorRegistry) (type : String)
    (habsent : type ∉ registry.map Prod.fst) :
    lookupCreator registry type = .error ("Unknown layer type: " ++ type) := by
  have hnone : registry.find? (fun entry => entry.1 == type) = none := by
    rw [List.find?_eq_none]
    intro e he heq
    exact habsent (List.mem_map.2 ⟨e, he, by simpa using heq⟩)
  simp [lookupCreator, hnone]

/-! ## Convolution and deconvolution under dilation -/

/-- C1 (as stated, refuted): in a cuDNN build, the spec with explicit `CUDNN`
engine and dilation list `[2]` makes both `GetConvolutionLayer` and
`GetDeconvolutionLayer` stop with the fatal "doesn't support the dilated"
message; neither returns the native layer. -/
theorem dilated_explicit_cudnn_is_fatal :
    cudnnBuild.USE_CUDNN = true ∧
    (convParam .CUDNN [2]).convolution_param.engine = Engine.CUDNN ∧
    (∃ d ∈ (convParam .CUDNN [2]).convolution_param.dilation, d > 1) ∧
    GetConvolutionLayer cudnnBuild (convParam .CUDNN [2]) =
      .error "CuDNN doesn't support the dilated convolution at Layer l1" ∧
    GetDeconvolutionLayer cudnnBuild (convParam .CUDNN [2]) =
      .error "CuDNN doesn't support the dilated Deconvolution at Layer l1" ∧
    GetConvolutionLayer cudnnBuild (convParam .CUDNN [2]) ≠
      .ok ⟨.ConvolutionLayer, convParam .CUDNN [2]⟩ ∧
    GetDeconvolutionLayer cudnnBuild (convParam .CUDNN [2]) ≠
      .ok ⟨.DeconvolutionLayer, convParam .CUDNN [2]⟩ := by
  refine ⟨rfl, rfl, ⟨2, by simp [convParam], by decide⟩, ?_, ?_, ?_, ?_⟩ <;> decide

/-- C1 (amended): in a cuDNN build, for every spec whose dilation list has an
entry `> 1`: with engine `DEFAULT` both creators return the native layer
(`ConvolutionLayer`, `DeconvolutionLayer`); with explicit engine `CUDNN` both
fail fatally with the "doesn't support the dilated ..." message naming the
layer. -/
theorem dilated_conv_resolution (cfg : BuildConfig) (param : LayerParameter)
    (hcudnn : cfg.USE_CUDNN = true)
    (hdil : ∃ d ∈ param.convolution_param.dilation, d > 1) :
    (param.convolution_param.engine = Engine.DEFAULT →
      GetConvolutionLayer cfg param = .ok ⟨.ConvolutionLayer, param⟩ ∧
      GetDeconvolutionLayer cfg param = .ok ⟨.DeconvolutionLayer, param⟩) ∧
    (param.convolution_param.engine = Engine.CUDNN →
      GetConvolutionLayer cfg param =
        .error ("CuDNN doesn't support the dilated convolution at Layer " ++ param.name) ∧
      GetDeconvolutionLayer cfg param =
        .error ("CuDNN doesn't support the dilated Deconvolution at Layer " ++ param.name)) := by
  have hd : use_dilation param.convolution_param.dilation = true :=
    (use_dilation_iff _).2 hdil
  constructor
  · intro he
    simp [GetConvolutionLayer, GetDeconvolutionLayer, he, hcudnn, hd]
  · intro he
    simp [GetConvolutionLayer, GetDeconvolutionLayer, he, hcudnn, hd]

/-- Witness for C1 (amended): dilation `[1, 2]` under `DEFAULT` gives the native
layers, and under explicit `CUDNN` gives the fatal messages. -/
theorem dilated_conv_resolution_witness :
    (GetConvolutionLayer cudnnBuild (convParam .DEFAULT [1, 2]) =
        .ok ⟨.ConvolutionLayer, convParam .DEFAULT [1, 2]⟩ ∧
      GetDeconvolutionLayer cudnnBuild (convParam .DEFAULT [1, 2]) =
        .ok ⟨.DeconvolutionLayer, convParam .DEFAULT [1, 2]⟩) ∧
    (GetConvolutionLayer cudnnBuild (convParam .CUDNN [1, 2]) =
        .error ("CuDNN doesn't support the dilated convolution at Layer " ++
          (convParam .CUDNN [1, 2]).name) ∧
      GetDeconvolutionLayer cudnnBuild (convParam .CUDNN [1, 2]) =
        .error ("CuDNN doesn't support the dilated Deconvolution at Layer " ++
          (convParam .CUDNN [1, 2]).name)) :=
  ⟨(dilated_conv_resolution cudnnBuild (convParam .DEFAULT [1, 2]) rfl
      ⟨2, by simp [convParam], by decide⟩).1 rfl,
   (dilated_conv_resolution cudnnBuild (convParam .CUDNN [1, 2]) rfl
      ⟨2, by simp [convParam], by decide⟩).2 rfl⟩

/-! ## Activations and softmax under the `DEFAULT` engine -/

/-- C2 (as stated, refuted): in a cuDNN build, the spec with every engine left
at `DEFAULT` makes the ReLU, Sigmoid, TanH and Softmax creators return the
cuDNN classes, not the native ones. -/
theorem default_activation_with_cudnn_is_accelerated :
    cudnnBuild.USE_CUDNN = true ∧
    sampleParam.relu_param.engine = Engine.DEFAULT ∧
    sampleParam.sigmoid_param.engine = Engine.DEFAULT ∧
    sampleParam.tanh_param.engine = Engine.DEFAULT ∧
    sampleParam.softmax_param.engine = Engine.DEFAULT ∧
    GetReLULayer cudnnBuild sampleParam = .ok ⟨.CuDNNReLULayer, sampleParam⟩ ∧
    GetSigmoidLayer cudnnBuild sampleParam = .ok ⟨.CuDNNSigmoidLayer, sampleParam⟩ ∧
    GetTanHLayer cudnnBuild sampleParam = .ok ⟨.CuDNNTanHLayer, sampleParam⟩ ∧
    GetSoftmaxLayer cudnnBuild sampleParam = .ok ⟨.CuDNNSoftmaxLayer, sampleParam⟩ ∧
    GetReLULayer cudnnBuild sampleParam ≠ .ok ⟨.ReLULayer, sampleParam⟩ ∧
    GetSigmoidLayer cudnnBuild sampleParam ≠ .ok ⟨.SigmoidLayer, sampleParam⟩ ∧
    GetTanHLayer cudnnBuild sampleParam ≠ .ok ⟨.TanHLayer, sampleParam⟩ ∧
    GetSoftmaxLayer cudnnBuild sampleParam ≠ .ok ⟨.SoftmaxLayer, sampleParam⟩ := by
  decide

/-- C2 (amended): for each of the ReLU, Sigmoid, TanH and Softmax creators and
every spec whose engine is `DEFAULT`, the returned instance is the native one
(`ReLULayer`, `SigmoidLayer`, `TanHLayer`, `SoftmaxLayer`) when `USE_CUDNN` is
undefined, and the cuDNN one (`CuDNNReLULayer`, `CuDNNSigmoidLayer`,
`CuDNNTanHLayer`, `CuDNNSoftmaxLayer`) when it is defined. -/
theorem default_activation_resolution (cfg : BuildConfig) :
    (∀ param : LayerParameter, param.relu_param.engine = Engine.DEFAULT →
      GetReLULayer cfg param =
        .ok ⟨if cfg.USE_CUDNN then .CuDNNReLULayer else .ReLULayer, param⟩) ∧
    (∀ param : LayerParameter, param.sigmoid_param.engine = Engine.DEFAULT →
      GetSigmoidLayer cfg param =
        .ok ⟨if cfg.USE_CUDNN then .CuDNNSigmoidLayer else .SigmoidLayer, param⟩) ∧
    (∀ param : LayerParameter, param.tanh_param.engine = Engine.DEFAULT →
      GetTanHLayer cfg param =
        .ok ⟨if cfg.USE_CUDNN then .CuDNNTanHLayer else .TanHLayer, param⟩) ∧
    (∀ param : LayerParameter, param.softmax_param.engine = Engine.DEFAULT →
      GetSoftmaxLayer cfg param =
        .ok ⟨if cfg.USE_CUDNN then .CuDNNSoftmaxLayer else .SoftmaxLayer, param⟩) := by
  refine ⟨?_, ?_, ?_, ?_⟩ <;> intro param he <;> cases hc : cfg.USE_CUDNN <;>
    simp [GetReLULayer, GetSigmoidLayer, GetTanHLayer, GetSoftmaxLayer, he, hc]

/-- Witness for C2 (amended): without cuDNN the four creators return the native
classes on the sample spec. -/
theorem default_activation_resolution_witness :
    GetReLULayer cpuBuild sampleParam = .ok ⟨.ReLULayer, sampleParam⟩ ∧
    GetSigmoidLayer cpuBuild sampleParam = .ok ⟨.SigmoidLayer, sampleParam⟩ ∧
    GetTanHLayer cpuBuild sampleParam = .ok ⟨.TanHLayer, sampleParam⟩ ∧
    GetSoftmaxLayer cpuBuild sampleParam = .ok ⟨.SoftmaxLayer, sampleParam⟩ :=
  ⟨(default_activation_resolution cpuBuild).1 sampleParam rfl,
   (default_activation_resolution cpuBuild).2.1 sampleParam rfl,
   (default_activation_resolution cpuBuild).2.2.1 sampleParam rfl,
   (default_activation_resolution cpuBuild).2.2.2 sampleParam rfl⟩

/-! ## Pooling -/

/-- C3: in a cuDNN build with engine `DEFAULT` or `CUDNN`, `GetPoolingLayer`
succeeds for every spec; it returns the native `PoolingLayer` exactly when the
spec has more than one top or the pooling method is `MAX`, and
`CuDNNPoolingLayer` in every other case. -/
theorem pooling_cudnn_resolution (cfg : BuildConfig) (param : LayerParameter)
    (hcudnn : cfg.USE_CUDNN = true)
    (hengine : param.pooling_param.engine = Engine.DEFAULT ∨
      param.pooling_param.engine = Engine.CUDNN) :
    (∃ layer, GetPoolingLayer cfg param = .ok layer) ∧
    (GetPoolingLayer cfg param = .ok ⟨.PoolingLayer, param⟩ ↔
      (param.top_size > 1 ∨ param.pooling_param.pool = PoolMethod.MAX)) ∧
    (¬ (param.top_size > 1 ∨ param.pooling_param.pool = PoolMethod.MAX) →
      GetPoolingLayer cfg param = .ok ⟨.CuDNNPoolingLayer, param⟩) := by
  have hres : GetPoolingLayer cfg param =
      .ok ⟨if param.top_size > 1 ∨ param.pooling_param.pool = PoolMethod.MAX
            then .PoolingLayer else .CuDNNPoolingLayer, param⟩ := by
    rcases hengine with he | he <;>
      by_cases ht : param.top_size > 1 <;>
      by_cases hp : param.pooling_param.pool = PoolMethod.MAX <;>
      simp [GetPoolingLayer, he, hcudnn, ht, hp]
  refine ⟨⟨_, hres⟩, ?_, ?_⟩
  · rw [hres]
    by_cases hc : param.top_size > 1 ∨ param.pooling_param.pool = PoolMethod.MAX
    · simp [hc]
    · simp [hc]
  · intro hc
    rw [hres, if_neg hc]

/-- Witness for C3: the spec with engine `DEFAULT`, method `MAX` and one top
resolves to the native `PoolingLayer` in a cuDNN build. -/
theorem pooling_cudnn_resolution_witness :
    sampleParam.pooling_param.engine = Engine.DEFAULT ∧
    sampleParam.pooling_param.pool = PoolMethod.MAX ∧
    sampleParam.top_size = 1 ∧
    GetPoolingLayer cudnnBuild sampleParam = .ok ⟨.PoolingLayer, sampleParam⟩ :=
  ⟨rfl, rfl, rfl,
   (pooling_cudnn_resolution cudnnBuild sampleParam rfl (Or.inl rfl)).2.1.2 (Or.inr rfl)⟩

/-! ## Local response normalisation -/

/-- C4: in a cuDNN build with engine `DEFAULT` or `CUDNN` and a norm region other
than `WITHIN_CHANNEL`, `GetLRNLayer` returns the native `LRNLayer` exactly when
`local_size > CUDNN_LRN_MAX_N` and `CuDNNLRNLayer` otherwise; a `local_size`
equal to the limit stays on cuDNN. -/
theorem lrn_cross_channel_resolution (cfg : BuildConfig) (param : LayerParameter)
    (hcudnn : cfg.USE_CUDNN = true)
    (hengine : param.lrn_param.engine = Engine.DEFAULT ∨
      param.lrn_param.engine = Engine.CUDNN)
    (hregion : param.lrn_param.norm_region ≠ NormRegion.WITHIN_CHANNEL) :
    (GetLRNLayer cfg param = .ok ⟨.LRNLayer, param⟩ ↔
      param.lrn_param.local_size > cfg.CUDNN_LRN_MAX_N) ∧
    (¬ param.lrn_param.local_size > cfg.CUDNN_LRN_MAX_N →
      GetLRNLayer cfg param = .ok ⟨.CuDNNLRNLayer, param⟩) ∧
    (param.lrn_param.local_size = cfg.CUDNN_LRN_MAX_N →
      GetLRNLayer cfg param = .ok ⟨.CuDNNLRNLayer, param⟩) := by
  have hres : GetLRNLayer cfg param =
      .ok ⟨if param.lrn_param.local_size > cfg.CUDNN_LRN_MAX_N
            then .LRNLayer else .CuDNNLRNLayer, param⟩ := by
    rcases hengine with he | he <;>
      by_cases hs : param.lrn_param.local_size > cfg.CUDNN_LRN_MAX_N <;>
      simp [GetLRNLayer, he, hcudnn, hregion, hs]
  refine ⟨?_, ?_, ?_⟩
  · rw [hres]
    by_cases hs : param.lrn_param.local_size > cfg.CUDNN_LRN_MAX_N
    · simp [hs]
    · simp [hs]
  · intro hs
    rw [hres, if_neg hs]
  · intro hs
    rw [hres, if_neg (by omega)]

/-- Witness for C4: with the limit 16, a cross-channel window of 16 stays on
`CuDNNLRNLayer` and a window of 17 falls back to `LRNLayer`. -/
theorem lrn_cross_channel_resolution_witness :
    GetLRNLayer cudnnBuild (lrnParam .CUDNN .ACROSS_CHANNELS 16) =
      .ok ⟨.CuDNNLRNLayer, lrnParam .CUDNN .ACROSS_CHANNELS 16⟩ ∧
    GetLRNLayer cudnnBuild (lrnParam .DEFAULT .ACROSS_CHANNELS 17) =
      .ok ⟨.LRNLayer, lrnParam .DEFAULT .ACROSS_CHANNELS 17⟩ :=
  ⟨(lrn_cross_channel_resolution cudnnBuild (lrnParam .CUDNN .ACROSS_CHANNELS 16) rfl
      (Or.inr rfl) (by decide)).2.2 rfl,
   (lrn_cross_channel_resolution cudnnBuild (lrnParam .DEFAULT .ACROSS_CHANNELS 17) rfl
      (Or.inl rfl) (by decide)).1.2 (by decide)⟩

/-- C5: in a cuDNN build with engine `CUDNN` or `DEFAULT`, for every spec whose
norm region is `WITHIN_CHANNEL` and every `local_size`, `GetLRNLayer` returns
`CuDNNLCNLayer`, never `LRNLayer` and never `CuDNNLRNLayer`. -/
theorem lrn_within_channel_resolution (cfg : BuildConfig) (param : LayerParameter)
    (hcudnn : cfg.USE_CUDNN = true)
    (hengine : param.lrn_param.engine = Engine.CUDNN ∨
      param.lrn_param.engine = Engine.DEFAULT)
    (hregion : param.lrn_param.norm_region = NormRegion.WITHIN_CHANNEL) :
    GetLRNLayer cfg param = .ok ⟨.CuDNNLCNLayer, param⟩ ∧
    GetLRNLayer cfg param ≠ .ok ⟨.LRNLayer, param⟩ ∧
    GetLRNLayer cfg param ≠ .ok ⟨.CuDNNLRNLayer, param⟩ := by
  have hres : GetLRNLayer cfg param = .ok ⟨.CuDNNLCNLayer, param⟩ := by
    rcases hengine with he | he <;> simp [GetLRNLayer, he, hcudnn, hregion]
  refine ⟨hres, ?_, ?_⟩ <;> rw [hres] <;> simp

/-- Witness for C5: a within-channel window of 1000, far above the limit 16,
still resolves to `CuDNNLCNLayer`. -/
theorem lrn_within_channel_resolution_witness :
    (lrnParam .CUDNN .WITHIN_CHANNEL 1000).lrn_param.local_size >
      cudnnBuild.CUDNN_LRN_MAX_N ∧
    GetLRNLayer cudnnBuild (lrnParam .CUDNN .WITHIN_CHANNEL 1000) =
      .ok ⟨.CuDNNLCNLayer, lrnParam .CUDNN .WITHIN_CHANNEL 1000⟩ :=
  ⟨by decide,
   (lrn_within_channel_resolution cudnnBuild (lrnParam .CUDNN .WITHIN_CHANNEL 1000) rfl
      (Or.inl rfl) rfl).1⟩

/-! ## Convolution under the `DEFAULT` engine -/

/-- C6: in a cuDNN build with engine `DEFAULT`, `GetConvolutionLayer` returns
`CuDNNConvolutionLayer` for every dilation list with no entry `> 1` (the empty
list and `[1, 1]` included), and the native `ConvolutionLayer` for every
dilation list with some entry `> 1`. -/
theorem conv_default_resolution (cfg : BuildConfig) (param : LayerParameter)
    (hcudnn : cfg.USE_CUDNN = true)
    (hengine : param.convolution_param.engine = Engine.DEFAULT) :
    ((∀ d ∈ param.convolution_param.dilation, ¬ d > 1) →
      GetConvolutionLayer cfg param = .ok ⟨.CuDNNConvolutionLayer, param⟩) ∧
    ((∃ d ∈ param.convolution_param.dilation, d > 1) →
      GetConvolutionLayer cfg param = .ok ⟨.ConvolutionLayer, param⟩) := by
  constructor
  · intro hno
    have hd : use_dilation param.convolution_param.dilation = false :=
      (use_dilation_eq_false_iff _).2 (fun d hmem => Nat.le_of_not_lt (hno d hmem))
    simp [GetConvolutionLayer, hengine, hcudnn, hd]
  · intro hsome
    have hd : use_dilation param.convolution_param.dilation = true :=
      (use_dilation_iff _).2 hsome
    simp [GetConvolutionLayer, hengine, hcudnn, hd]

/-- Witness for C6: dilation lists `[]` and `[1, 1]` resolve to
`CuDNNConvolutionLayer`, the list `[1, 3]` to `ConvolutionLayer`. -/
theorem conv_default_resolution_witness :
    GetConvolutionLayer cudnnBuild (convParam .DEFAULT []) =
      .ok ⟨.CuDNNConvolutionLayer, convParam .DEFAULT []⟩ ∧
    GetConvolutionLayer cudnnBuild (convParam .DEFAULT [1, 1]) =
      .ok ⟨.CuDNNConvolutionLayer, convParam .DEFAULT [1, 1]⟩ ∧
    GetConvolutionLayer cudnnBuild (convParam .DEFAULT [1, 3]) =
      .ok ⟨.ConvolutionLayer, convParam .DEFAULT [1, 3]⟩ :=
  ⟨(conv_default_resolution cudnnBuild (convParam .DEFAULT []) rfl rfl).1
      (by simp [convParam]),
   (conv_default_resolution cudnnBuild (convParam .DEFAULT [1, 1]) rfl rfl).1
      (by simp [convParam]),
   (conv_default_resolution cudnnBuild (convParam .DEFAULT [1, 3]) rfl rfl).2
      ⟨3, by simp [convParam], by decide⟩⟩

/-! ## Deconvolution is always native -/

/-- C7: for every build, spec and engine, whenever `GetDeconvolutionLayer`
returns an instance, that instance is the native `DeconvolutionLayer` built from
the spec. -/
theorem deconv_result_is_native (cfg : BuildConfig) (param : LayerParameter)
    (layer : Layer) (hok : GetDeconvolutionLayer cfg param = .ok layer) :
    layer = ⟨.DeconvolutionLayer, param⟩ ∧ layer.cls = LayerClass.DeconvolutionLayer := by
  have hl : layer = ⟨.DeconvolutionLayer, param⟩ := by
    unfold GetDeconvolutionLayer at hok
    simp only at hok
    split_ifs at hok <;> exact (Except.ok.inj hok).symm
  exact ⟨hl, by rw [hl]⟩

/-- Witness for C7: in a cuDNN build the explicit `CUDNN` engine without
dilation, which would select the accelerated path, yields `DeconvolutionLayer`. -/
theorem deconv_result_is_native_witness :
    GetDeconvolutionLayer cudnnBuild (convParam .CUDNN [1]) =
      .ok ⟨.DeconvolutionLayer, convParam .CUDNN [1]⟩ ∧
    (⟨.DeconvolutionLayer, convParam .CUDNN [1]⟩ : Layer).cls =
      LayerClass.DeconvolutionLayer :=
  ⟨by decide,
   (deconv_result_is_native cudnnBuild (convParam .CUDNN [1])
      ⟨.DeconvolutionLayer, convParam .CUDNN [1]⟩ (by decide)).2⟩

/-! ## The explicit native engine -/

/-- C8: for each of the eight engine-aware creators, every spec whose engine is
the explicit `CAFFE` makes the creator succeed with the native class of that
operator, whatever the other parameters and whether or not `USE_CUDNN` is
defined. -/
theorem caffe_engine_is_native (cfg : BuildConfig) :
    (∀ param : LayerParameter, param.convolution_param.engine = Engine.CAFFE →
      GetConvolutionLayer cfg param = .ok ⟨.ConvolutionLayer, param⟩) ∧
    (∀ param : LayerParameter, param.convolution_param.engine = Engine.CAFFE →
      GetDeconvolutionLayer cfg param = .ok ⟨.DeconvolutionLayer, param⟩) ∧
    (∀ param : LayerParameter, param.pooling_param.engine = Engine.CAFFE →
      GetPoolingLayer cfg param = .ok ⟨.PoolingLayer, param⟩) ∧
    (∀ param : LayerParameter, param.lrn_param.engine = Engine.CAFFE →
      GetLRNLayer cfg param = .ok ⟨.LRNLayer, param⟩) ∧
    (∀ param : LayerParameter, param.relu_param.engine = Engine.CAFFE →
      GetReLULayer cfg param = .ok ⟨.ReLULayer, param⟩) ∧
    (∀ param : LayerParameter, param.sigmoid_param.engine = Engine.CAFFE →
      GetSigmoidLayer cfg param = .ok ⟨.SigmoidLayer, param⟩) ∧
    (∀ param : LayerParameter, param.softmax_param.engine = Engine.CAFFE →
      GetSoftmaxLayer cfg param = .ok ⟨.SoftmaxLayer, param⟩) ∧
    (∀ param : LayerParameter, param.tanh_param.engine = Engine.CAFFE →
      GetTanHLayer cfg param = .ok ⟨.TanHLayer, param⟩) := by
  refine ⟨?_, ?_, ?_, ?_, ?_, ?_, ?_, ?_⟩ <;> intro param he <;>
    simp [GetConvolutionLayer, GetDeconvolutionLayer, GetPoolingLayer, GetLRNLayer,
      GetReLULayer, GetSigmoidLayer, GetSoftmaxLayer, GetTanHLayer, he]

/-- Witness for C8: in a cuDNN build, explicit `CAFFE` specs with dilation 3,
an average pooling with one top, a within-channel LRN and the activations all
resolve to the native classes. -/
theorem caffe_engine_is_native_witness :
    GetConvolutionLayer cudnnBuild (convParam .CAFFE [3]) =
      .ok ⟨.ConvolutionLayer, convParam .CAFFE [3]⟩ ∧
    GetDeconvolutionLayer cudnnBuild (convParam .CAFFE [3]) =
      .ok ⟨.DeconvolutionLayer, convParam .CAFFE [3]⟩ ∧
    GetPoolingLayer cudnnBuild (poolParam .CAFFE .AVE ["out"]) =
      .ok ⟨.PoolingLayer, poolParam .CAFFE .AVE ["out"]⟩ ∧
    GetLRNLayer cudnnBuild (lrnParam .CAFFE .WITHIN_CHANNEL 5) =
      .ok ⟨.LRNLayer, lrnParam .CAFFE .WITHIN_CHANNEL 5⟩ ∧
    GetReLULayer cudnnBuild (activationParam .CAFFE) =
      .ok ⟨.ReLULayer, activationParam .CAFFE⟩ ∧
    GetSigmoidLayer cudnnBuild (activationParam .CAFFE) =
      .ok ⟨.SigmoidLayer, activationParam .CAFFE⟩ ∧
    GetSoftmaxLayer cudnnBuild (activationParam .CAFFE) =
      .ok ⟨.SoftmaxLayer, activationParam .CAFFE⟩ ∧
    GetTanHLayer cudnnBuild (activationParam .CAFFE) =
      .ok ⟨.TanHLayer, activationParam .CAFFE⟩ :=
  ⟨(caffe_engine_is_native cudnnBuild).1 (convParam .CAFFE [3]) rfl,
   (caffe_engine_is_native cudnnBuild).2.1 (convParam .CAFFE [3]) rfl,
   (caffe_engine_is_native cudnnBuild).2.2.1 (poolParam .CAFFE .AVE ["out"]) rfl,
   (caffe_engine_is_native cudnnBuild).2.2.2.1 (lrnParam .CAFFE .WITHIN_CHANNEL 5) rfl,
   (caffe_engine_is_native cudnnBuild).2.2.2.2.1 (activationParam .CAFFE) rfl,
   (caffe_engine_is_native cudnnBuild).2.2.2.2.2.1 (activationParam .CAFFE) rfl,
   (caffe_engine_is_native cudnnBuild).2.2.2.2.2.2.1 (activationParam .CAFFE) rfl,
   (caffe_engine_is_native cudnnBuild).2.2.2.2.2.2.2 (activationParam .CAFFE) rfl⟩

/-! ## The `DEFAULT` engine without cuDNN -/

/-- C9: when `USE_CUDNN` is undefined, for each of the eight engine-aware
creators every spec with engine `DEFAULT` resolves to the native class of that
operator, whatever the other parameters. -/
theorem default_without_cudnn_is_native (cfg : BuildConfig)
    (hcpu : cfg.USE_CUDNN = false) :
    (∀ param : LayerParameter, param.convolution_param.engine = Engine.DEFAULT →
      GetConvolutionLayer cfg param = .ok ⟨.ConvolutionLayer, param⟩) ∧
    (∀ param : LayerParameter, param.convolution_param.engine = Engine.DEFAULT →
      GetDeconvolutionLayer cfg param = .ok ⟨.DeconvolutionLayer, param⟩) ∧
    (∀ param : LayerParameter, param.pooling_param.engine = Engine.DEFAULT →
      GetPoolingLayer cfg param = .ok ⟨.PoolingLayer, param⟩) ∧
    (∀ param : LayerParameter, param.lrn_param.engine = Engine.DEFAULT →
      GetLRNLayer cfg param = .ok ⟨.LRNLayer, param⟩) ∧
    (∀ param : LayerParameter, param.relu_param.engine = Engine.DEFAULT →
      GetReLULayer cfg param = .ok ⟨.ReLULayer, param⟩) ∧
    (∀ param : LayerParameter, param.sigmoid_param.engine = Engine.DEFAULT →
      GetSigmoidLayer cfg param = .ok ⟨.SigmoidLayer, param⟩) ∧
    (∀ param : LayerParameter, param.softmax_param.engine = Engine.DEFAULT →
      GetSoftmaxLayer cfg param = .ok ⟨.SoftmaxLayer, param⟩) ∧
    (∀ param : LayerParameter, param.tanh_param.engine = Engine.DEFAULT →
      GetTanHLayer cfg param = .ok ⟨.TanHLayer, param⟩) := by
  refine ⟨?_, ?_, ?_, ?_, ?_, ?_, ?_, ?_⟩ <;> intro param he <;>
    simp [GetConvolutionLayer, GetDeconvolutionLayer, GetPoolingLayer, GetLRNLayer,
      GetReLULayer, GetSigmoidLayer, GetSoftmaxLayer, GetTanHLayer, he, hcpu]

/-- Witness for C9: without cuDNN, `DEFAULT` specs (dilation 1, average pooling,
cross-channel LRN of size 5, the activations) resolve to the native classes. -/
theorem default_without_cudnn_is_native_witness :
    GetConvolutionLayer cpuBuild (convParam .DEFAULT [1]) =
      .ok ⟨.ConvolutionLayer, convParam .DEFAULT [1]⟩ ∧
    GetDeconvolutionLayer cpuBuild (convParam .DEFAULT [1]) =
      .ok ⟨.DeconvolutionLayer, convParam .DEFAULT [1]⟩ ∧
    GetPoolingLayer cpuBuild (poolParam .DEFAULT .AVE ["out"]) =
      .ok ⟨.PoolingLayer, poolParam .DEFAULT .AVE ["out"]⟩ ∧
    GetLRNLayer cpuBuild (lrnParam .DEFAULT .ACROSS_CHANNELS 5) =
      .ok ⟨.LRNLayer, lrnParam .DEFAULT .ACROSS_CHANNELS 5⟩ ∧
    GetReLULayer cpuBuild (activationParam .DEFAULT) =
      .ok ⟨.ReLULayer, activationParam .DEFAULT⟩ ∧
    GetSigmoidLayer cpuBuild (activationParam .DEFAULT) =
      .ok ⟨.SigmoidLayer, activationParam .DEFAULT⟩ ∧
    GetSoftmaxLayer cpuBuild (activationParam .DEFAULT) =
      .ok ⟨.SoftmaxLayer, activationParam .DEFAULT⟩ ∧
    GetTanHLayer cpuBuild (activationParam .DEFAULT) =
      .ok ⟨.TanHLayer, activationParam .DEFAULT⟩ :=
  ⟨(default_without_cudnn_is_native cpuBuild rfl).1 (convParam .DEFAULT [1]) rfl,
   (default_without_cudnn_is_native cpuBuild rfl).2.1 (convParam .DEFAULT [1]) rfl,
   (default_without_cudnn_is_native cpuBuild rfl).2.2.1 (poolParam .DEFAULT .AVE ["out"]) rfl,
   (default_without_cudnn_is_native cpuBuild rfl).2.2.2.1
      (lrnParam .DEFAULT .ACROSS_CHANNELS 5) rfl,
   (default_without_cudnn_is_native cpuBuild rfl).2.2.2.2.1 (activationParam .DEFAULT) rfl,
   (default_without_cudnn_is_native cpuBuild rfl).2.2.2.2.2.1 (activationParam .DEFAULT) rfl,
   (default_without_cudnn_is_native cpuBuild rfl).2.2.2.2.2.2.1 (activationParam .DEFAULT) rfl,
   (default_without_cudnn_is_native cpuBuild rfl).2.2.2.2.2.2.2 (activationParam .DEFAULT) rfl⟩

/-! ## Unknown engine values -/

/-- C10: for each of the eight engine-aware creators, every spec whose engine is
none of `DEFAULT`, `CAFFE`, `CUDNN` makes the creator fail fatally with the
message "Layer <name> has unknown engine." built from the declared name of the
layer, whatever the build and the other parameters. -/
theorem unknown_engine_is_fatal (cfg : BuildConfig) :
    (∀ param : LayerParameter, param.convolution_param.engine ≠ Engine.DEFAULT →
      param.convolution_param.engine ≠ Engine.CAFFE → param.convolution_param.engine ≠ Engine.CUDNN →
      GetConvolutionLayer cfg param = .error ("Layer " ++ param.name ++ " has unknown engine.")) ∧
    (∀ param : LayerParameter, param.convolution_param.engine ≠ Engine.DEFAULT →
      param.convolution_param.engine ≠ Engine.CAFFE → param.convolution_param.engine ≠ Engine.CUDNN →
      GetDeconvolutionLayer cfg param = .error ("Layer " ++ param.name ++ " has unknown engine.")) ∧
    (∀ param : LayerParameter, param.pooling_param.engine ≠ Engine.DEFAULT →
      param.pooling_param.engine ≠ Engine.CAFFE → param.pooling_param.engine ≠ Engine.CUDNN →
      GetPoolingLayer cfg param = .error ("Layer " ++ param.name ++ " has unknown engine.")) ∧
    (∀ param : LayerParameter, param.lrn_param.engine ≠ Engine.DEFAULT →
      param.lrn_param.engine ≠ Engine.CAFFE → param.lrn_param.engine ≠ Engine.CUDNN →
      GetLRNLayer cfg param = .error ("Layer " ++ param.name ++ " has unknown engine.")) ∧
    (∀ param : LayerParameter, param.relu_param.engine ≠ Engine.DEFAULT →
      param.relu_param.engine ≠ Engine.CAFFE → param.relu_param.engine ≠ Engine.CUDNN →
      GetReLULayer cfg param = .error ("Layer " ++ param.name ++ " has unknown engine.")) ∧
    (∀ param : LayerParameter, param.sigmoid_param.engine ≠ Engine.DEFAULT →
      param.sigmoid_param.engine ≠ Engine.CAFFE → param.sigmoid_param.engine ≠ Engine.CUDNN →
      GetSigmoidLayer cfg param = .error ("Layer " ++ param.name ++ " has unknown engine.")) ∧
    (∀ param : LayerParameter, param.softmax_param.engine ≠ Engine.DEFAULT →
      param.softmax_param.engine ≠ Engine.CAFFE → param.softmax_param.engine ≠ Engine.CUDNN →
      GetSoftmaxLayer cfg param = .error ("Layer " ++ param.name ++ " has unknown engine.")) ∧
    (∀ param : LayerParameter, param.tanh_param.engine ≠ Engine.DEFAULT →
      param.tanh_param.engine ≠ Engine.CAFFE → param.tanh_param.engine ≠ Engine.CUDNN →
      GetTanHLayer cfg param = .error ("Layer " ++ param.name ++ " has unknown engine.")) := by
  refine ⟨?_, ?_, ?_, ?_, ?_, ?_, ?_, ?_⟩ <;> intro param h1 h2 h3 <;>
    simp [GetConvolutionLayer, GetDeconvolutionLayer, GetPoolingLayer, GetLRNLayer,
      GetReLULayer, GetSigmoidLayer, GetSoftmaxLayer, GetTanHLayer,
      unknownEngineMessage, h1, h2, h3]

/-- Witness for C10: in a cuDNN build the engine value `unknown 7` makes every
creator fail with "Layer l1 has unknown engine.", also for a dilated
convolution, a two-top max pooling and a within-channel LRN. -/
theorem unknown_engine_is_fatal_witness :
    GetConvolutionLayer cudnnBuild (convParam (.unknown 7) [2]) =
      .error "Layer l1 has unknown engine." ∧
    GetDeconvolutionLayer cudnnBuild (convParam (.unknown 7) [2]) =
      .error "Layer l1 has unknown engine." ∧
    GetPoolingLayer cudnnBuild (poolParam (.unknown 7) .MAX ["a", "b"]) =
      .error "Layer l1 has unknown engine." ∧
    GetLRNLayer cudnnBuild (lrnParam (.unknown 7) .WITHIN_CHANNEL 20) =
      .error "Layer l1 has unknown engine." ∧
    GetReLULayer cudnnBuild (activationParam (.unknown 7)) =
      .error "Layer l1 has unknown engine." ∧
    GetSigmoidLayer cudnnBuild (activationParam (.unknown 7)) =
      .error "Layer l1 has unknown engine." ∧
    GetSoftmaxLayer cudnnBuild (activationParam (.unknown 7)) =
      .error "Layer l1 has unknown engine." ∧
    GetTanHLayer cudnnBuild (activationParam (.unknown 7)) =
      .error "Layer l1 has unknown engine." :=
  ⟨(unknown_engine_is_fatal cudnnBuild).1 (convParam (.unknown 7) [2])
      (by decide) (by decide) (by decide),
   (unknown_engine_is_fatal cudnnBuild).2.1 (convParam (.unknown 7) [2])
      (by decide) (by decide) (by decide),
   (unknown_engine_is_fatal cudnnBuild).2.2.1 (poolParam (.unknown 7) .MAX ["a", "b"])
      (by decide) (by decide) (by decide),
   (unknown_engine_is_fatal cudnnBuild).2.2.2.1 (lrnParam (.unknown 7) .WITHIN_CHANNEL 20)
      (by decide) (by decide) (by decide),
   (unknown_engine_is_fatal cudnnBuild).2.2.2.2.1 (activationParam (.unknown 7))
      (by decide) (by decide) (by decide),
   (unknown_engine_is_fatal cudnnBuild).2.2.2.2.2.1 (activationParam (.unknown 7))
      (by decide) (by decide) (by decide),
   (unknown_engine_is_fatal cudnnBuild).2.2.2.2.2.2.1 (activationParam (.unknown 7))
      (by decide) (by decide) (by decide),
   (unknown_engine_is_fatal cudnnBuild).2.2.2.2.2.2.2 (activationParam (.unknown 7))
      (by decide) (by decide) (by decide)⟩

/-! ## Activations and softmax under the explicit `CUDNN` engine -/

/-- C11: in a cuDNN build, for each of the ReLU, Sigmoid, TanH and Softmax
creators, every spec whose engine is the explicit `CUDNN` makes the creator
succeed with the cuDNN class; no other parameter is consulted, so nothing
downgrades to native. -/
theorem explicit_cudnn_activation_is_accelerated (cfg : BuildConfig)
    (hcudnn : cfg.USE_CUDNN = true) :
    (∀ param : LayerParameter, param.relu_param.engine = Engine.CUDNN →
      GetReLULayer cfg param = .ok ⟨.CuDNNReLULayer, param⟩) ∧
    (∀ param : LayerParameter, param.sigmoid_param.engine = Engine.CUDNN →
      GetSigmoidLayer cfg param = .ok ⟨.CuDNNSigmoidLayer, param⟩) ∧
    (∀ param : LayerParameter, param.tanh_param.engine = Engine.CUDNN →
      GetTanHLayer cfg param = .ok ⟨.CuDNNTanHLayer, param⟩) ∧
    (∀ param : LayerParameter, param.softmax_param.engine = Engine.CUDNN →
      GetSoftmaxLayer cfg param = .ok ⟨.CuDNNSoftmaxLayer, param⟩) := by
  refine ⟨?_, ?_, ?_, ?_⟩ <;> intro param he <;>
    simp [GetReLULayer, GetSigmoidLayer, GetTanHLayer, GetSoftmaxLayer, he, hcudnn]

/-- Witness for C11: the four creators on the sample spec with every activation
engine set to `CUDNN`, in the cuDNN build. -/
theorem explicit_cudnn_activation_is_accelerated_witness :
    GetReLULayer cudnnBuild (activationParam .CUDNN) =
      .ok ⟨.CuDNNReLULayer, activationParam .CUDNN⟩ ∧
    GetSigmoidLayer cudnnBuild (activationParam .CUDNN) =
      .ok ⟨.CuDNNSigmoidLayer, activationParam .CUDNN⟩ ∧
    GetTanHLayer cudnnBuild (activationParam .CUDNN) =
      .ok ⟨.CuDNNTanHLayer, activationParam .CUDNN⟩ ∧
    GetSoftmaxLayer cudnnBuild (activationParam .CUDNN) =
      .ok ⟨.CuDNNSoftmaxLayer, activationParam .CUDNN⟩ :=
  ⟨(explicit_cudnn_activation_is_accelerated cudnnBuild rfl).1 (activationParam .CUDNN) rfl,
   (explicit_cudnn_activation_is_accelerated cudnnBuild rfl).2.1 (activationParam .CUDNN) rfl,
   (explicit_cudnn_activation_is_accelerated cudnnBuild rfl).2.2.1 (activationParam .CUDNN) rfl,
   (explicit_cudnn_activation_is_accelerated cudnnBuild rfl).2.2.2 (activationParam .CUDNN) rfl⟩

/-! ## Creators with a single implementation -/

/-- C12: each of the nine single-implementation creators succeeds on every spec
and in every build, and returns its one layer class built from the spec; the
class does not depend on the spec or on the build. -/
theorem single_implementation_creators (cfg : BuildConfig) (param : LayerParameter) :
    GetImageLabelDataLayer cfg param = .ok ⟨.ImageLabelDataLayer, param⟩ ∧
    GetMeshImageLabelDataLayer cfg param = .ok ⟨.MeshImageLabelDataLayer, param⟩ ∧
    GetImageDepthLabelDataLayer cfg param = .ok ⟨.ImageDepthLabelDataLayer, param⟩ ∧
    GetImage2MeshLayer cfg param = .ok ⟨.Image2MeshLayer, param⟩ ∧
    GetDropoutLayer cfg param = .ok ⟨.DropoutLayer, param⟩ ∧
    GetSoftmaxWithLossLayer cfg param = .ok ⟨.SoftmaxWithLossLayer, param⟩ ∧
    GetCRFLossLayer cfg param = .ok ⟨.CRFLossLayer, param⟩ ∧
    GetAccuracyLayer cfg param = .ok ⟨.AccuracyLayer, param⟩ ∧
    GetInputLayer cfg param = .ok ⟨.InputLayer, param⟩ :=
  ⟨rfl, rfl, rfl, rfl, rfl, rfl, rfl, rfl, rfl⟩

/-! ## Exact failure condition in a cuDNN build -/

/-- C17: in a cuDNN build with an engine among `DEFAULT`, `CAFFE`, `CUDNN`: the
Pooling, LRN, ReLU, Sigmoid, TanH and Softmax creators never fail; the
Convolution and Deconvolution creators fail exactly when the engine is the
explicit `CUDNN` and some dilation entry is `> 1`, and then with the
"CuDNN doesn't support the dilated ..." message. -/
theorem cudnn_build_failure_condition (cfg : BuildConfig)
    (hcudnn : cfg.USE_CUDNN = true) :
    (∀ param : LayerParameter,
      (param.pooling_param.engine = Engine.DEFAULT ∨ param.pooling_param.engine = Engine.CAFFE ∨
        param.pooling_param.engine = Engine.CUDNN) →
      ∃ layer, GetPoolingLayer cfg param = .ok layer) ∧
    (∀ param : LayerParameter,
      (param.lrn_param.engine = Engine.DEFAULT ∨ param.lrn_param.engine = Engine.CAFFE ∨
        param.lrn_param.engine = Engine.CUDNN) →
      ∃ layer, GetLRNLayer cfg param = .ok layer) ∧
    (∀ param : LayerParameter,
      (param.relu_param.engine = Engine.DEFAULT ∨ param.relu_param.engine = Engine.CAFFE ∨
        param.relu_param.engine = Engine.CUDNN) →
      ∃ layer, GetReLULayer cfg param = .ok layer) ∧
    (∀ param : LayerParameter,
      (param.sigmoid_param.engine = Engine.DEFAULT ∨ param.sigmoid_param.engine = Engine.CAFFE ∨
        param.sigmoid_param.engine = Engine.CUDNN) →
      ∃ layer, GetSigmoidLayer cfg param = .ok layer) ∧
    (∀ param : LayerParameter,
      (param.tanh_param.engine = Engine.DEFAULT ∨ param.tanh_param.engine = Engine.CAFFE ∨
        param.tanh_param.engine = Engine.CUDNN) →
      ∃ layer, GetTanHLayer cfg param = .ok layer) ∧
    (∀ param : LayerParameter,
      (param.softmax_param.engine = Engine.DEFAULT ∨ param.softmax_param.engine = Engine.CAFFE ∨
        param.softmax_param.engine = Engine.CUDNN) →
      ∃ layer, GetSoftmaxLayer cfg param = .ok layer) ∧
    (∀ param : LayerParameter,
      (param.convolution_param.engine = Engine.DEFAULT ∨ param.convolution_param.engine = Engine.CAFFE ∨
        param.convolution_param.engine = Engine.CUDNN) →
      (((∃ msg, GetConvolutionLayer cfg param = .error msg) ↔
          (param.convolution_param.engine = Engine.CUDNN ∧
            ∃ d ∈ param.convolution_param.dilation, d > 1)) ∧
        ((param.convolution_param.engine = Engine.CUDNN ∧
            ∃ d ∈ param.convolution_param.dilation, d > 1) →
          GetConvolutionLayer cfg param =
            .error ("CuDNN doesn't support the dilated convolution at Layer " ++ param.name)))) ∧
    (∀ param : LayerParameter,
      (param.convolution_param.engine = Engine.DEFAULT ∨ param.convolution_param.engine = Engine.CAFFE ∨
        param.convolution_param.engine = Engine.CUDNN) →
      (((∃ msg, GetDeconvolutionLayer cfg param = .error msg) ↔
          (param.convolution_param.engine = Engine.CUDNN ∧
            ∃ d ∈ param.convolution_param.dilation, d > 1)) ∧
        ((param.convolution_param.engine = Engine.CUDNN ∧
            ∃ d ∈ param.convolution_param.dilation, d > 1) →
          GetDeconvolutionLayer cfg param =
            .error ("CuDNN doesn't support the dilated Deconvolution at Layer " ++ param.name)))) := by
  refine ⟨?_, ?_, ?_, ?_, ?_, ?_, ?_, ?_⟩
  · intro param he
    by_cases ht : param.top_size > 1 <;>
      by_cases hp : param.pooling_param.pool = PoolMethod.MAX <;>
      rcases he with he | he | he <;>
      simp [GetPoolingLayer, he, hcudnn, ht, hp]
  · intro param he
    by_cases hr : param.lrn_param.norm_region = NormRegion.WITHIN_CHANNEL <;>
      by_cases hs : param.lrn_param.local_size > cfg.CUDNN_LRN_MAX_N <;>
      rcases he with he | he | he <;>
      simp [GetLRNLayer, he, hcudnn, hr, hs]
  · intro param he
    rcases he with he | he | he <;> simp [GetReLULayer, he, hcudnn]
  · intro param he
    rcases he with he | he | he <;> simp [GetSigmoidLayer, he, hcudnn]
  · intro param he
    rcases he with he | he | he <;> simp [GetTanHLayer, he, hcudnn]
  · intro param he
    rcases he with he | he | he <;> simp [GetSoftmaxLayer, he, hcudnn]
  · intro param he
    cases hd : use_dilation param.convolution_param.dilation
    · have hno : ¬ ∃ d ∈ param.convolution_param.dilation, d > 1 := by
        rw [← use_dilation_iff, hd]; simp
      rcases he with he | he | he <;>
        simp [GetConvolutionLayer, he, hcudnn, hd, hno]
    · have hyes : ∃ d ∈ param.convolution_param.dilation, d > 1 :=
        (use_dilation_iff _).1 hd
      rcases he with he | he | he <;>
        simp [GetConvolutionLayer, he, hcudnn, hd, hyes]
  · intro param he
    cases hd : use_dilation param.convolution_param.dilation
    · have hno : ¬ ∃ d ∈ param.convolution_param.dilation, d > 1 := by
        rw [← use_dilation_iff, hd]; simp
      rcases he with he | he | he <;>
        simp [GetDeconvolutionLayer, he, hcudnn, hd, hno]
    · have hyes : ∃ d ∈ param.convolution_param.dilation, d > 1 :=
        (use_dilation_iff _).1 hd
      rcases he with he | he | he <;>
        simp [GetDeconvolutionLayer, he, hcudnn, hd, hyes]

/-- Witness for C17: in the cuDNN build the six creators succeed on specs with
known engines; convolution and deconvolution fail on explicit `CUDNN` with
dilation `[1, 2]`, and do not fail under `DEFAULT` with that dilation or under
`CUDNN` with dilation `[1, 1]`. -/
theorem cudnn_build_failure_condition_witness :
    (∃ layer, GetPoolingLayer cudnnBuild (poolParam .CUDNN .MAX ["a", "b"]) = .ok layer) ∧
    (∃ layer, GetLRNLayer cudnnBuild (lrnParam .CUDNN .ACROSS_CHANNELS 20) = .ok layer) ∧
    (∃ layer, GetReLULayer cudnnBuild (activationParam .CUDNN) = .ok layer) ∧
    (∃ layer, GetSigmoidLayer cudnnBuild (activationParam .DEFAULT) = .ok layer) ∧
    (∃ layer, GetTanHLayer cudnnBuild (activationParam .CAFFE) = .ok layer) ∧
    (∃ layer, GetSoftmaxLayer cudnnBuild (activationParam .CUDNN) = .ok layer) ∧
    GetConvolutionLayer cudnnBuild (convParam .CUDNN [1, 2]) =
      .error "CuDNN doesn't support the dilated convolution at Layer l1" ∧
    (¬ ∃ msg, GetConvolutionLayer cudnnBuild (convParam .DEFAULT [1, 2]) = .error msg) ∧
    GetDeconvolutionLayer cudnnBuild (convParam .CUDNN [1, 2]) =
      .error "CuDNN doesn't support the dilated Deconvolution at Layer l1" ∧
    (¬ ∃ msg, GetDeconvolutionLayer cudnnBuild (convParam .CUDNN [1, 1]) = .error msg) :=
  ⟨(cudnn_build_failure_condition cudnnBuild rfl).1
      (poolParam .CUDNN .MAX ["a", "b"]) (Or.inr (Or.inr rfl)),
   (cudnn_build_failure_condition cudnnBuild rfl).2.1
      (lrnParam .CUDNN .ACROSS_CHANNELS 20) (Or.inr (Or.inr rfl)),
   (cudnn_build_failure_condition cudnnBuild rfl).2.2.1
      (activationParam .CUDNN) (Or.inr (Or.inr rfl)),
   (cudnn_build_failure_condition cudnnBuild rfl).2.2.2.1
      (activationParam .DEFAULT) (Or.inl rfl),
   (cudnn_build_failure_condition cudnnBuild rfl).2.2.2.2.1
      (activationParam .CAFFE) (Or.inr (Or.inl rfl)),
   (cudnn_build_failure_condition cudnnBuild rfl).2.2.2.2.2.1
      (activationParam .CUDNN) (Or.inr (Or.inr rfl)),
   ((cudnn_build_failure_condition cudnnBuild rfl).2.2.2.2.2.2.1
      (convParam .CUDNN [1, 2]) (Or.inr (Or.inr rfl))).2
      ⟨rfl, 2, by simp [convParam], by decide⟩,
   fun hfail => by
    have h := ((cudnn_build_failure_condition cudnnBuild rfl).2.2.2.2.2.2.1
      (convParam .DEFAULT [1, 2]) (Or.inl rfl)).1.1 hfail
    exact absurd h.1 (by decide),
   ((cudnn_build_failure_condition cudnnBuild rfl).2.2.2.2.2.2.2
      (convParam .CUDNN [1, 2]) (Or.inr (Or.inr rfl))).2
      ⟨rfl, 2, by simp [convParam], by decide⟩,
   fun hfail => by
    have h := ((cudnn_build_failure_condition cudnnBuild rfl).2.2.2.2.2.2.2
      (convParam .CUDNN [1, 1]) (Or.inr (Or.inr rfl))).1.1 hfail
    obtain ⟨d, hmem, hgt⟩ := h.2
    simp [convParam] at hmem
    omega⟩

/-! ## The explicit `CUDNN` engine without cuDNN -/

/-- C18: when `USE_CUDNN` is undefined, each of the eight engine-aware creators
fails with "Layer <name> has unknown engine." on every spec whose engine is the
explicit `CUDNN`, without falling back to native; and a creator succeeds exactly
when the engine is `DEFAULT` or `CAFFE`. -/
theorem explicit_cudnn_without_backend_is_fatal (cfg : BuildConfig)
    (hcpu : cfg.USE_CUDNN = false) :
    (∀ param : LayerParameter,
      (param.convolution_param.engine = Engine.CUDNN →
        GetConvolutionLayer cfg param = .error ("Layer " ++ param.name ++ " has unknown engine.")) ∧
      ((∃ layer, GetConvolutionLayer cfg param = .ok layer) ↔
        (param.convolution_param.engine = Engine.DEFAULT ∨ param.convolution_param.engine = Engine.CAFFE))) ∧
    (∀ param : LayerParameter,
      (param.convolution_param.engine = Engine.CUDNN →
        GetDeconvolutionLayer cfg param = .error ("Layer " ++ param.name ++ " has unknown engine.")) ∧
      ((∃ layer, GetDeconvolutionLayer cfg param = .ok layer) ↔
        (param.convolution_param.engine = Engine.DEFAULT ∨ param.convolution_param.engine = Engine.CAFFE))) ∧
    (∀ param : LayerParameter,
      (param.pooling_param.engine = Engine.CUDNN →
        GetPoolingLayer cfg param = .error ("Layer " ++ param.name ++ " has unknown engine.")) ∧
      ((∃ layer, GetPoolingLayer cfg param = .ok layer) ↔
        (param.pooling_param.engine = Engine.DEFAULT ∨ param.pooling_param.engine = Engine.CAFFE))) ∧
    (∀ param : LayerParameter,
      (param.lrn_param.engine = Engine.CUDNN →
        GetLRNLayer cfg param = .error ("Layer " ++ param.name ++ " has unknown engine.")) ∧
      ((∃ layer, GetLRNLayer cfg param = .ok layer) ↔
        (param.lrn_param.engine = Engine.DEFAULT ∨ param.lrn_param.engine = Engine.CAFFE))) ∧
    (∀ param : LayerParameter,
      (param.relu_param.engine = Engine.CUDNN →
        GetReLULayer cfg param = .error ("Layer " ++ param.name ++ " has unknown engine.")) ∧
      ((∃ layer, GetReLULayer cfg param = .ok layer) ↔
        (param.relu_param.engine = Engine.DEFAULT ∨ param.relu_param.engine = Engine.CAFFE))) ∧
    (∀ param : LayerParameter,
      (param.sigmoid_param.engine = Engine.CUDNN →
        GetSigmoidLayer cfg param = .error ("Layer " ++ param.name ++ " has unknown engine.")) ∧
      ((∃ layer, GetSigmoidLayer cfg param = .ok layer) ↔
        (param.sigmoid_param.engine = Engine.DEFAULT ∨ param.sigmoid_param.engine = Engine.CAFFE))) ∧
    (∀ param : LayerParameter,
      (param.softmax_param.engine = Engine.CUDNN →
        GetSoftmaxLayer cfg param = .error ("Layer " ++ param.name ++ " has unknown engine.")) ∧
      ((∃ layer, GetSoftmaxLayer cfg param = .ok layer) ↔
        (param.softmax_param.engine = Engine.DEFAULT ∨ param.softmax_param.engine = Engine.CAFFE))) ∧
    (∀ param : LayerParameter,
      (param.tanh_param.engine = Engine.CUDNN →
        GetTanHLayer cfg param = .error ("Layer " ++ param.name ++ " has unknown engine.")) ∧
      ((∃ layer, GetTanHLayer cfg param = .ok layer) ↔
        (param.tanh_param.engine = Engine.DEFAULT ∨ param.tanh_param.engine = Engine.CAFFE))) := by
  refine ⟨?_, ?_, ?_, ?_, ?_, ?_, ?_, ?_⟩ <;> intro param
  · cases he : param.convolution_param.engine <;>
      simp [GetConvolutionLayer, he, hcpu, unknownEngineMessage]
  · cases he : param.convolution_param.engine <;>
      simp [GetDeconvolutionLayer, he, hcpu, unknownEngineMessage]
  · cases he : param.pooling_param.engine <;>
      simp [GetPoolingLayer, he, hcpu, unknownEngineMessage]
  · cases he : param.lrn_param.engine <;>
      simp [GetLRNLayer, he, hcpu, unknownEngineMessage]
  · cases he : param.relu_param.engine <;>
      simp [GetReLULayer, he, hcpu, unknownEngineMessage]
  · cases he : param.sigmoid_param.engine <;>
      simp [GetSigmoidLayer, he, hcpu, unknownEngineMessage]
  · cases he : param.softmax_param.engine <;>
      simp [GetSoftmaxLayer, he, hcpu, unknownEngineMessage]
  · cases he : param.tanh_param.engine <;>
      simp [GetTanHLayer, he, hcpu, unknownEngineMessage]

/-- Witness for C18: without cuDNN, every creator fails with
"Layer l1 has unknown engine." on a spec with explicit `CUDNN` engine. -/
theorem explicit_cudnn_without_backend_is_fatal_witness :
    GetConvolutionLayer cpuBuild (convParam .CUDNN [1]) =
      .error "Layer l1 has unknown engine." ∧
    GetDeconvolutionLayer cpuBuild (convParam .CUDNN [1]) =
      .error "Layer l1 has unknown engine." ∧
    GetPoolingLayer cpuBuild (poolParam .CUDNN .AVE ["out"]) =
      .error "Layer l1 has unknown engine." ∧
    GetLRNLayer cpuBuild (lrnParam .CUDNN .ACROSS_CHANNELS 5) =
      .error "Layer l1 has unknown engine." ∧
    GetReLULayer cpuBuild (activationParam .CUDNN) =
      .error "Layer l1 has unknown engine." ∧
    GetSigmoidLayer cpuBuild (activationParam .CUDNN) =
      .error "Layer l1 has unknown engine." ∧
    GetSoftmaxLayer cpuBuild (activationParam .CUDNN) =
      .error "Layer l1 has unknown engine." ∧
    GetTanHLayer cpuBuild (activationParam .CUDNN) =
      .error "Layer l1 has unknown engine." :=
  ⟨((explicit_cudnn_without_backend_is_fatal cpuBuild rfl).1
      (convParam .CUDNN [1])).1 rfl,
   ((explicit_cudnn_without_backend_is_fatal cpuBuild rfl).2.1
      (convParam .CUDNN [1])).1 rfl,
   ((explicit_cudnn_without_backend_is_fatal cpuBuild rfl).2.2.1
      (poolParam .CUDNN .AVE ["out"])).1 rfl,
   ((explicit_cudnn_without_backend_is_fatal cpuBuild rfl).2.2.2.1
      (lrnParam .CUDNN .ACROSS_CHANNELS 5)).1 rfl,
   ((explicit_cudnn_without_backend_is_fatal cpuBuild rfl).2.2.2.2.1
      (activationParam .CUDNN)).1 rfl,
   ((explicit_cudnn_without_backend_is_fatal cpuBuild rfl).2.2.2.2.2.1
      (activationParam .CUDNN)).1 rfl,
   ((explicit_cudnn_without_backend_is_fatal cpuBuild rfl).2.2.2.2.2.2.1
      (activationParam .CUDNN)).1 rfl,
   ((explicit_cudnn_without_backend_is_fatal cpuBuild rfl).2.2.2.2.2.2.2
      (activationParam .CUDNN)).1 rfl⟩

/-! ## Deconvolution follows the convolution rule -/

/-- C19: for every build and spec, `GetDeconvolutionLayer` resolves the same
engine as `GetConvolutionLayer` and both end in the same one of four ways:
engine `CAFFE`, both return their native class; engine `CUDNN` in a cuDNN build
without dilation, convolution returns `CuDNNConvolutionLayer` and deconvolution
its only class `DeconvolutionLayer`; engine `CUDNN` in a cuDNN build with
dilation, both fail with the dilation message; any other case, both fail with
the unknown-engine message. -/
theorem deconv_follows_conv_rule (cfg : BuildConfig) (param : LayerParameter) :
    convolutionEngine cfg param = deconvolutionEngine cfg param ∧
    ((convolutionEngine cfg param = Engine.CAFFE ∧
        GetConvolutionLayer cfg param = .ok ⟨.ConvolutionLayer, param⟩ ∧
        GetDeconvolutionLayer cfg param = .ok ⟨.DeconvolutionLayer, param⟩) ∨
     (cfg.USE_CUDNN = true ∧ convolutionEngine cfg param = Engine.CUDNN ∧
        (∀ d ∈ param.convolution_param.dilation, d ≤ 1) ∧
        GetConvolutionLayer cfg param = .ok ⟨.CuDNNConvolutionLayer, param⟩ ∧
        GetDeconvolutionLayer cfg param = .ok ⟨.DeconvolutionLayer, param⟩) ∨
     (cfg.USE_CUDNN = true ∧ convolutionEngine cfg param = Engine.CUDNN ∧
        (∃ d ∈ param.convolution_param.dilation, d > 1) ∧
        GetConvolutionLayer cfg param =
          .error ("CuDNN doesn't support the dilated convolution at Layer " ++ param.name) ∧
        GetDeconvolutionLayer cfg param =
          .error ("CuDNN doesn't support the dilated Deconvolution at Layer " ++ param.name)) ∨
     (convolutionEngine cfg param ≠ Engine.CAFFE ∧
        ¬ (cfg.USE_CUDNN = true ∧ convolutionEngine cfg param = Engine.CUDNN) ∧
        GetConvolutionLayer cfg param =
          .error ("Layer " ++ param.name ++ " has unknown engine.") ∧
        GetDeconvolutionLayer cfg param =
          .error ("Layer " ++ param.name ++ " has unknown engine."))) := by
  refine ⟨rfl, ?_⟩
  cases hd : use_dilation param.convolution_param.dilation
  · have hno : ∀ d ∈ param.convolution_param.dilation, d ≤ 1 :=
      (use_dilation_eq_false_iff _).1 hd
    have hno2 : ¬ ∃ d ∈ param.convolution_param.dilation, d > 1 := by
      rw [← use_dilation_iff, hd]; simp
    cases he : param.convolution_param.engine <;> cases hc : cfg.USE_CUDNN <;>
      simp [convolutionEngine, GetConvolutionLayer, GetDeconvolutionLayer,
        unknownEngineMessage, he, hc, hd, hno2] <;> exact hno
  · have hyes : ∃ d ∈ param.convolution_param.dilation, d > 1 :=
      (use_dilation_iff _).1 hd
    cases he : param.convolution_param.engine <;> cases hc : cfg.USE_CUDNN <;>
      simp [convolutionEngine, GetConvolutionLayer, GetDeconvolutionLayer,
        unknownEngineMessage, he, hc, hd, hyes]

/-! ## Determinism -/

/-- C13: for every registration of the file (the Python one included when
enabled), every build and every spec: whenever the creator registered under a
type name returns an instance, the class of that instance belongs to the family
of that type name and to the family of no other registered type name. -/
theorem registered_creator_stays_in_family (py : Bool) (python : LayerParameter → Bool)
    (cfg : BuildConfig) (param : LayerParameter) (layer : Layer)
    (entry : String × Creator) (hreg : entry ∈ allRegistrations py python)
    (hok : entry.2 cfg param = .ok layer) :
    layer.cls ∈ operatorFamily entry.1 ∧
    ∀ other ∈ registeredNames true, other ≠ entry.1 →
      layer.cls ∉ operatorFamily other := by
  have hown := allRegistrations_owner py python cfg param layer entry hreg hok
  rw [← hown]
  exact operatorFamily_familyOwner layer.cls

/-- Witness for C13: the creator registered under "Pooling", on an average
pooling with explicit `CUDNN` engine in the cuDNN build, returns a
`CuDNNPoolingLayer`, which is in the family of "Pooling" and of no other name. -/
theorem registered_creator_stays_in_family_witness :
    LayerClass.CuDNNPoolingLayer ∈ operatorFamily "Pooling" ∧
    ∀ other ∈ registeredNames true, other ≠ "Pooling" →
      LayerClass.CuDNNPoolingLayer ∉ operatorFamily other :=
  registered_creator_stays_in_family false (fun _ => false) cudnnBuild
    (poolParam .CUDNN .AVE ["out"]) ⟨.CuDNNPoolingLayer, poolParam .CUDNN .AVE ["out"]⟩
    ("Pooling", GetPoolingLayer) (by simp [allRegistrations, layerRegistrations])
    (by decide)

/-! ## Registration of the type names -/

/-- C14: the type names registered by the file (with "Python" when the Python
layer is enabled) are pairwise distinct; hence registering all its entries, in
any order, into the empty registry never fails, and afterwards looking up each
name returns the creator it was registered with. -/
theorem registrations_never_collide (py : Bool) (python : LayerParameter → Bool)
    (regs : List (String × Creator)) (hperm : regs.Perm (allRegistrations py python)) :
    (allRegistrations py python).map Prod.fst = registeredNames py ∧
    (registeredNames py).Nodup ∧
    ∃ registry, registerAll [] regs = .ok registry ∧
      ∀ entry ∈ allRegistrations py python,
        lookupCreator registry entry.1 = .ok entry.2 := by
  have hnames := allRegistrations_names py python
  have hnd : (regs.map Prod.fst).Nodup := by
    have hp : (regs.map Prod.fst).Perm (registeredNames py) := by
      rw [← hnames]; exact hperm.map Prod.fst
    exact hp.nodup_iff.2 (registeredNames_nodup py)
  refine ⟨hnames, registeredNames_nodup py, regs, ?_, ?_⟩
  · have h := registerAll_of_nodup regs [] (by simpa using hnd)
    simpa using h
  · intro entry hmem
    exact lookupCreator_of_mem regs hnd entry (hperm.symm.subset hmem)

/-- Witness for C14: the registrations of a build with the Python layer, taken in
reverse source order, all succeed, and every name is then mapped to its creator. -/
theorem registrations_never_collide_witness :
    (allRegistrations true (fun _ => true)).map Prod.fst = registeredNames true ∧
    (registeredNames true).Nodup ∧
    ∃ registry,
      registerAll [] (allRegistrations true (fun _ => true)).reverse = .ok registry ∧
      ∀ entry ∈ allRegistrations true (fun _ => true),
        lookupCreator registry entry.1 = .ok entry.2 :=
  registrations_never_collide true (fun _ => true)
    (allRegistrations true (fun _ => true)).reverse (List.reverse_perm _)

/-! ## Unregistered type names -/

/-- C16: looking up a type name that no entry of the registry carries fails with
a message naming it, and so does `CreateLayer` on every spec of that type; in
particular `CreateLayer` fails on every spec whose type is none of the names
registered by the file, when the registry holds the registrations of the file
only. -/
theorem unregistered_type_fails (type : String) :
    (∀ registry : CreatorRegistry, (∀ entry ∈ registry, entry.1 ≠ type) →
      lookupCreator registry type = .error ("Unknown layer type: " ++ type) ∧
      ∀ (cfg : BuildConfig) (param : LayerParameter), param.type = type →
        CreateLayer registry cfg param = .error ("Unknown layer type: " ++ type)) ∧
    (∀ (py : Bool) (python : LayerParameter → Bool) (registry : CreatorRegistry),
      registerAll [] (allRegistrations py python) = .ok registry →
      type ∉ registeredNames py →
      ∀ (cfg : BuildConfig) (param : LayerParameter), param.type = type →
        CreateLayer registry cfg param = .error ("Unknown layer type: " ++ type)) := by
  have hgen : ∀ registry : CreatorRegistry, type ∉ registry.map Prod.fst →
      lookupCreator registry type = .error ("Unknown layer type: " ++ type) ∧
      ∀ (cfg : BuildConfig) (param : LayerParameter), param.type = type →
        CreateLayer registry cfg param = .error ("Unknown layer type: " ++ type) := by
    intro registry habsent
    have hl := lookupCreator_of_not_mem registry type habsent
    refine ⟨hl, ?_⟩
    intro cfg param htype
    simp [CreateLayer, htype, hl]
  constructor
  · intro registry habsent
    apply hgen
    intro hmem
    obtain ⟨e, he, heq⟩ := List.mem_map.1 hmem
    exact habsent e he heq
  · intro py python registry hreg habsent
    have hall := registerAll_of_nodup (allRegistrations py python) []
      (by rw [List.nil_append, allRegistrations_names]; exact registeredNames_nodup py)
    rw [hall] at hreg
    have hr : registry = allRegistrations py python := by
      simpa using (Except.ok.inj hreg).symm
    refine (hgen registry ?_).2
    rw [hr, allRegistrations_names]
    exact habsent

/-- Witness for C16: "InnerProduct" is not registered by the file, so on the
registry holding the registrations of the file a spec of that type is refused. -/
theorem unregistered_type_fails_witness :
    CreateLayer (allRegistrations false (fun _ => false)) cudnnBuild
      { sampleParam with type := "InnerProduct" } =
      .error "Unknown layer type: InnerProduct" :=
  (unregistered_type_fails "InnerProduct").2 false (fun _ => false)
    (allRegistrations false (fun _ => false))
    (registerAll_of_nodup (allRegistrations false (fun _ => false)) [] (by decide))
    (by decide) cudnnBuild { sampleParam with type := "InnerProduct" } rfl

end caffe
